import Mathlib

/-!
# Question upload form: submission workflow

A shallow embedding of `src/pages/UploadQuestion.jsx`: the form values, the
derived `basePoints`, the two store inserts issued by `onSubmit`, the
`try / catch / finally` outcome mapping and the submit guard of the form.

The component is modelled as a state machine.  Each `await` of `onSubmit`
splits the function into phases; the settlement of the awaited store call is
an event that carries what the promise settled with.
-/

namespace UploadQuestion

/-! ## JavaScript values -/

/-- JavaScript values as far as the component inspects them: the `data` and
`error` members of a store response and the value caught by `catch`.
A number is a safe integer (magnitude below `2 ^ 53`), which JavaScript holds
exactly and prints in decimal.  Objects are finite trees whose fields are
listed in property enumeration order with distinct keys.  `exn` is an `Error`
instance without enumerable own property, and `exnWith` one that has some, as
the error class of the store client; in both `message` is an own,
non-enumerable property.  Values that `JSON.stringify` refuses (a BigInt, an
object that contains a cycle) are not values of this type; see `Caught`. -/
inductive JsVal where
  | undefined
  | null
  | bool (b : Bool)
  | num (n : Int) (safe : n.natAbs < 9007199254740992 := by decide)
  | str (s : String)
  | obj (fields : List (String × JsVal))
  | exn (message : String)
  | exnWith (message : String) (fields : List (String × JsVal))
  deriving Repr, Inhabited

namespace JsVal

/-- JavaScript truthiness (`ToBoolean`). -/
def truthy : JsVal → Bool
  | undefined => false
  | null => false
  | bool b => b
  | num n _ => n != 0
  | str s => s != ""
  | obj _ => true
  | exn _ => true
  | exnWith _ _ => true

/-- The operator `a || b`. -/
def or (a b : JsVal) : JsVal :=
  if a.truthy then a else b

/-- The value is `undefined` or `null`. -/
def nullish : JsVal → Bool
  | undefined => true
  | null => true
  | _ => false

/-- Property read on a value that is not nullish, for the keys the component
reads (`message`, `error_description`, `id`): an own property of an object,
the message of an `Error`, and `undefined` on anything else. -/
def prop (v : JsVal) (k : String) : JsVal :=
  match v with
  | obj fields => (fields.lookup k).getD undefined
  | exn m => if k = "message" then str m else undefined
  | exnWith m fields =>
    if k = "message" then str m else (fields.lookup k).getD undefined
  | _ => undefined

/-- Optional chaining `v?.k`. -/
def optProp (v : JsVal) (k : String) : JsVal :=
  if v.nullish then undefined else v.prop k

/-- The `TypeError` raised by a property read on `undefined` or `null`. -/
def typeError (v : JsVal) (k : String) : JsVal :=
  exn ("Cannot read properties of " ++ (if v matches null then "null" else "undefined")
    ++ " (reading " ++ String.singleton (Char.ofNat 39) ++ k
    ++ String.singleton (Char.ofNat 39) ++ ")")

/-- Member access `v.k`, which throws on a nullish `v`. -/
def getProp (v : JsVal) (k : String) : Except JsVal JsVal :=
  if v.nullish then .error (typeError v k) else .ok (v.prop k)

/-- Hexadecimal digit of a number below 16. -/
def hexDigit (n : Nat) : Char :=
  if n < 10 then Char.ofNat (48 + n) else Char.ofNat (87 + n)

/-- How `JSON.stringify` writes one character of a string. -/
def escapeChar (c : Char) : String :=
  if c = Char.ofNat 34 then "\\\""
  else if c = Char.ofNat 92 then "\\\\"
  else if c = Char.ofNat 8 then "\\b"
  else if c = Char.ofNat 12 then "\\f"
  else if c = Char.ofNat 10 then "\\n"
  else if c = Char.ofNat 13 then "\\r"
  else if c = Char.ofNat 9 then "\\t"
  else if c.toNat < 32 then
    "\\u00" ++ String.singleton (hexDigit (c.toNat / 16))
      ++ String.singleton (hexDigit (c.toNat % 16))
  else String.singleton c

/-- A string as a JSON string literal. -/
def quote (s : String) : String :=
  "\"" ++ String.join (s.toList.map escapeChar) ++ "\""

mutual
/-- The result of `JSON.stringify(v)`; `none` stands for `undefined`. -/
def stringify : JsVal → Option String
  | undefined => none
  | null => some "null"
  | bool b => some (if b then "true" else "false")
  | num n _ => some (toString n)
  | str s => some (quote s)
  | obj fields => some ("\x7b" ++ ",".intercalate (stringifyFields fields) ++ "\x7d")
  | exn _ => some "\x7b\x7d"
  | exnWith _ fields =>
    some ("\x7b" ++ ",".intercalate (stringifyFields fields) ++ "\x7d")
/-- The members of an object, skipping the properties whose value has no JSON
form. -/
def stringifyFields : List (String × JsVal) → List String
  | [] => []
  | (k, v) :: rest =>
    match stringify v with
    | none => stringifyFields rest
    | some s => (quote k ++ ":" ++ s) :: stringifyFields rest
end

/-- `JSON.stringify(v)` as a JavaScript value. -/
def jsonStringify (v : JsVal) : JsVal :=
  match v.stringify with
  | some s => str s
  | none => undefined

end JsVal

/-! ## Form values -/

/-- The fields registered with the form (`register(...)` and the
`Controller` for `description`). -/
inductive Field where
  | round | title | description | inputFormat | outputFormat | constraints
  | example1Input | example1Output | example2Input | example2Output
  | hidden1Input | hidden1Output | hidden2Input | hidden2Output
  | hidden3Input | hidden3Output
  deriving DecidableEq, Repr

/-- The object `data` handed to `onSubmit`.  Every field comes from a
`<select>`, `<input>`, `<textarea>` or the rich-text editor, so it holds a
string, or nothing (`undefined`) when the field was never given a value. -/
structure Draft where
  round : Option String
  title : Option String
  description : Option String
  inputFormat : Option String
  outputFormat : Option String
  constraints : Option String
  example1Input : Option String
  example1Output : Option String
  example2Input : Option String
  example2Output : Option String
  hidden1Input : Option String
  hidden1Output : Option String
  hidden2Input : Option String
  hidden2Output : Option String
  hidden3Input : Option String
  hidden3Output : Option String
  deriving DecidableEq, Repr

/-- Value of a field of the draft. -/
def Draft.get (d : Draft) : Field → Option String
  | .round => d.round
  | .title => d.title
  | .description => d.description
  | .inputFormat => d.inputFormat
  | .outputFormat => d.outputFormat
  | .constraints => d.constraints
  | .example1Input => d.example1Input
  | .example1Output => d.example1Output
  | .example2Input => d.example2Input
  | .example2Output => d.example2Output
  | .hidden1Input => d.hidden1Input
  | .hidden1Output => d.hidden1Output
  | .hidden2Input => d.hidden2Input
  | .hidden2Output => d.hidden2Output
  | .hidden3Input => d.hidden3Input
  | .hidden3Output => d.hidden3Output

/-- The draft with one field replaced. -/
def Draft.set (d : Draft) (f : Field) (v : Option String) : Draft :=
  match f with
  | .round => { d with round := v }
  | .title => { d with title := v }
  | .description => { d with description := v }
  | .inputFormat => { d with inputFormat := v }
  | .outputFormat => { d with outputFormat := v }
  | .constraints => { d with constraints := v }
  | .example1Input => { d with example1Input := v }
  | .example1Output => { d with example1Output := v }
  | .example2Input => { d with example2Input := v }
  | .example2Output => { d with example2Output := v }
  | .hidden1Input => { d with hidden1Input := v }
  | .hidden1Output => { d with hidden1Output := v }
  | .hidden2Input => { d with hidden2Input := v }
  | .hidden2Output => { d with hidden2Output := v }
  | .hidden3Input => { d with hidden3Input := v }
  | .hidden3Output => { d with hidden3Output := v }

/-- The form values of `useForm()` called without `defaultValues`: no field
holds a value. -/
def defaultValues : Draft :=
  { round := none, title := none, description := none, inputFormat := none,
    outputFormat := none, constraints := none, example1Input := none,
    example1Output := none, example2Input := none, example2Output := none,
    hidden1Input := none, hidden1Output := none, hidden2Input := none,
    hidden2Output := none, hidden3Input := none, hidden3Output := none }

/-- The fields declared with a `required` rule, in the order of the markup:
every one of the sixteen fields. -/
def requiredFields : List Field :=
  [.round, .title, .description, .inputFormat, .outputFormat, .constraints,
   .example1Input, .example1Output, .example2Input, .example2Output,
   .hidden1Input, .hidden1Output, .hidden2Input, .hidden2Output,
   .hidden3Input, .hidden3Output]

/-! ## Derived value and payloads -/

/-- The score tier computed at the head of `onSubmit`'s `try` block. -/
def basePoints (round : Option String) : Nat :=
  if round = some "Rapid Fire" then 10
  else if round = some "Coding Cascade" then 25
  else if round = some "Hardcore DSA" then 100
  else 0

/-- A row of the `questions` table as built by step 1. -/
structure QuestionRow where
  title : Option String
  description : Option String
  input_format : Option String
  output_format : Option String
  constraints : Option String
  example_1_input : Option String
  example_1_output : Option String
  example_2_input : Option String
  example_2_output : Option String
  round : Option String
  base_points : Nat
  avg_time : Nat
  sequence_order : Nat
  deriving DecidableEq, Repr

/-- A row of the `test_cases` table as built by step 2. -/
structure TestCaseRow where
  question_id : JsVal
  input_data : Option String
  output_data : Option String
  is_hidden : Bool
  deriving Repr

/-- The object literal of step 1. -/
def questionPayload (data : Draft) : QuestionRow :=
  { title := data.title
    description := data.description
    input_format := data.inputFormat
    output_format := data.outputFormat
    constraints := data.constraints
    example_1_input := data.example1Input
    example_1_output := data.example1Output
    example_2_input := data.example2Input
    example_2_output := data.example2Output
    round := data.round
    base_points := basePoints data.round
    avg_time := 180
    sequence_order := 0 }

/-- The array `testCasesToInsert` of step 2. -/
def testCasesToInsert (data : Draft) (questionId : JsVal) : List TestCaseRow :=
  [ { question_id := questionId
      input_data := data.hidden1Input
      output_data := data.hidden1Output
      is_hidden := true },
    { question_id := questionId
      input_data := data.hidden2Input
      output_data := data.hidden2Output
      is_hidden := true },
    { question_id := questionId
      input_data := data.hidden3Input
      output_data := data.hidden3Output
      is_hidden := true } ]

/-! ## Store calls and their settlement -/

/-- The calls the component makes on the store client, with their payloads. -/
inductive StoreCall where
  /-- The chain `from('questions').insert(rows).select('id').single()`. -/
  | insertQuestion (rows : List QuestionRow)
  /-- The call `from('test_cases').insert(rows)`. -/
  | insertTestCases (rows : List TestCaseRow)
  deriving Repr

/-- The call is a question insert. -/
def StoreCall.isQuestionInsert : StoreCall → Bool
  | .insertQuestion _ => true
  | .insertTestCases _ => false

/-- The call is a hidden-test-case insert. -/
def StoreCall.isTestCasesInsert : StoreCall → Bool
  | .insertQuestion _ => false
  | .insertTestCases _ => true

/-- What an awaited store call settles with: the promise is fulfilled with a
response whose members `data` and `error` are destructured, or it is
rejected. -/
inductive Settled where
  | fulfilled (data error : JsVal)
  | rejected (reason : JsVal)
  deriving Repr

/-- Lines 38 to 62: the first `await`, `if (questionError) throw questionError`
and `questionData.id`. -/
def questionId : Settled → Except JsVal JsVal
  | .rejected reason => .error reason
  | .fulfilled questionData questionError =>
    if questionError.truthy then .error questionError
    else questionData.getProp "id"

/-- Lines 86 to 90: the second `await` and
`if (testCasesError) throw testCasesError`. -/
def checkTestCases : Settled → Except JsVal Unit
  | .rejected reason => .error reason
  | .fulfilled _ testCasesError =>
    if testCasesError.truthy then .error testCasesError else .ok ()

/-- The argument of `setErrorMessage` in the `catch` block. -/
def errorText (error : JsVal) : JsVal :=
  (((error.optProp "message").or (error.optProp "error_description")).or
    error.jsonStringify).or (.str "An unexpected error occurred.")

/-! ## The component -/

/-- Where `onSubmit` stands: not running, suspended at its first `await`, or
suspended at its second `await` (with the `data` and `questionId` it holds). -/
inductive Phase where
  | idle
  | awaitingQuestion (data : Draft)
  | awaitingTestCases (data : Draft) (questionId : JsVal)
  deriving Repr

/-- State of the mounted component: the three `useState` cells, the values and
the error markers kept by `useForm`, the phase of `onSubmit`, and two
history variables, the store calls issued so far and the number of calls of
`reset`. -/
structure Component where
  isSubmitting : Bool
  successMessage : String
  errorMessage : JsVal
  form : Draft
  errors : List Field
  phase : Phase
  calls : List StoreCall
  resets : Nat
  deriving Repr

/-- The component as first rendered. -/
def Component.init : Component :=
  { isSubmitting := false, successMessage := "", errorMessage := .str "",
    form := defaultValues, errors := [], phase := .idle, calls := [], resets := 0 }

/-- Lines 27 to 58: `onSubmit` from its call to its first `await`. -/
def onSubmitStart (c : Component) (data : Draft) : Component :=
  { c with
    isSubmitting := true
    errorMessage := .str ""
    successMessage := ""
    calls := c.calls ++ [.insertQuestion [questionPayload data]]
    phase := .awaitingQuestion data }

/-- Lines 94 to 104 on a caught value of `JsVal`: the `catch` block followed
by the `finally` block.  Line 95 logs `JSON.stringify(error, null, 2)`, which
returns on every value of `JsVal` and touches no state; `catchBlock` gives
the block on the values on which line 95 throws. -/
def onCatch (c : Component) (error : JsVal) : Component :=
  { c with errorMessage := errorText error, isSubmitting := false, phase := .idle }

/-- Lines 64 to 88: `onSubmit` from the first `await` to the second. -/
def onQuestionSettled (c : Component) (data : Draft) (r : Settled) : Component :=
  match questionId r with
  | .ok qid =>
    { c with
      calls := c.calls ++ [.insertTestCases (testCasesToInsert data qid)]
      phase := .awaitingTestCases data qid }
  | .error e => onCatch c e

/-- Modelled from the spec: `reset()` of the field-binding library, which
"clears all fields to empty"; called without argument it returns the form to
the default values and drops the error markers. -/
def reset (c : Component) : Component :=
  { c with form := defaultValues, errors := [], resets := c.resets + 1 }

/-- Lines 90 to 104: `onSubmit` from the second `await` to its end. -/
def onTestCasesSettled (c : Component) (r : Settled) : Component :=
  match checkTestCases r with
  | .ok () =>
    let c1 := { c with successMessage := "Question and test cases uploaded successfully!" }
    let c2 := reset c1
    { c2 with isSubmitting := false, phase := .idle }
  | .error e => onCatch c e

/-- Modelled from the spec: the `required` rule of the field-binding library
fails on a field that is empty, that is, holds no value or the empty string.
The value is compared as it stands: nothing in the source trims it, and the
`Controller` of `description` declares the same rule as the registered
inputs. -/
def isEmptyValue (v : Option String) : Bool :=
  match v with
  | none => true
  | some s => s == ""

/-- The fields whose `required` rule fails on the draft. -/
def failingFields (d : Draft) : List Field :=
  requiredFields.filter (fun f => isEmptyValue (d.get f))

/-- Lines 156 to 159: the second argument of `handleSubmit`. -/
def onInvalid (c : Component) : Component :=
  { c with errorMessage := .str "Please fill in all required fields." }

/-- Modelled from the spec: the submit wrapper of the field-binding library,
which "performs validation before invoking a provided callback": it records
the failing fields as error markers, then calls `onSubmit` with the form
values when no field fails and the invalid callback otherwise. -/
def handleSubmit (c : Component) : Component :=
  if failingFields c.form = [] then onSubmitStart { c with errors := [] } c.form
  else onInvalid { c with errors := failingFields c.form }

/-- What can happen to the mounted component. -/
inductive Event where
  /-- The user submits the form (the submit button, line 460). -/
  | submit
  /-- The first awaited store call settles. -/
  | questionSettled (r : Settled)
  /-- The second awaited store call settles. -/
  | testCasesSettled (r : Settled)
  /-- The user presses "Add Next Question" (line 142). -/
  | addNext
  /-- The user changes the value of a field. -/
  | edit (f : Field) (v : Option String)
  deriving Repr

/-- One transition of the component, taken once the component has rendered
its current state.  The form, and with it the submit button and the inputs,
is rendered only while `successMessage` is empty (line 119), the submit
button is `disabled` while `isSubmitting` (line 462), and the
"Add Next Question" button is rendered only with a success message.  The
event `submit` is a press of the submit button as rendered; the handler
bound to the form is `handleSubmit`, which, like `onSubmit`, tests no flag:
a submit dispatched before the render that disables the button runs
`handleSubmit` on the state as it is. -/
def step (c : Component) : Event → Component
  | .submit =>
    if c.successMessage ≠ "" then c
    else if c.isSubmitting then c
    else handleSubmit c
  | .questionSettled r =>
    match c.phase with
    | .awaitingQuestion data => onQuestionSettled c data r
    | _ => c
  | .testCasesSettled r =>
    match c.phase with
    | .awaitingTestCases _ _ => onTestCasesSettled c r
    | _ => c
  | .addNext =>
    if c.successMessage ≠ "" then { c with successMessage := "" } else c
  | .edit f v =>
    if c.successMessage ≠ "" then c else { c with form := c.form.set f v }

/-- The component after a list of events. -/
def run (c : Component) (events : List Event) : Component :=
  events.foldl step c

/-- A whole call `onSubmit(data)` in which the first awaited call settles
with `r1` and the second, when it is reached, with `r2`. -/
def onSubmit (c : Component) (data : Draft) (r1 r2 : Settled) : Component :=
  step (step (onSubmitStart c data) (.questionSettled r1)) (.testCasesSettled r2)

/-! ## The remote store -/

/-- Modelled from the spec: the remote data store, which keeps the question
rows, each under the identifier it generated for it, and the hidden-test-case
rows. -/
structure Store where
  questions : List (JsVal × QuestionRow)
  testCases : List TestCaseRow

/-- Modelled from the spec: the two store operations,
`insertQuestion(record) -> {id} | Failure` and
`insertHiddenTestCases(rows[3]) -> Success | Failure`.  A call that answers
with an identifier has persisted the row under it, a batch insert that
answers with success has persisted its rows, and a call that fails has
written nothing. -/
def Store.apply (s : Store) (call : StoreCall) (r : Settled) : Store :=
  match call with
  | .insertQuestion rows =>
    match questionId r with
    | .ok id => { s with questions := s.questions ++ rows.map (fun row => (id, row)) }
    | .error _ => s
  | .insertTestCases rows =>
    match checkTestCases r with
    | .ok () => { s with testCases := s.testCases ++ rows }
    | .error _ => s

/-- The store after a sequence of calls, each paired with what it settled
with. -/
def Store.applyAll (s : Store) (calls : List StoreCall) (settled : List Settled) : Store :=
  (calls.zip settled).foldl (fun st p => st.apply p.1 p.2) s

/-- Specification of the score tier, by cases on the round. -/
def basePointsSpec : Option String → Nat
  | some "Rapid Fire" => 10
  | some "Coding Cascade" => 25
  | some "Hardcore DSA" => 100
  | _ => 0

/-- The message rule read by presence: an alternative is taken as soon as it
is there, whatever its value. -/
def errorTextIfPresent (e : JsVal) : JsVal :=
  if !(e.optProp "message").nullish then e.optProp "message"
  else if !(e.optProp "error_description").nullish then e.optProp "error_description"
  else if !e.jsonStringify.nullish then e.jsonStringify
  else .str "An unexpected error occurred."

/-- The message rule read by truthiness: an alternative is taken when it is
truthy, so an empty string counts as missing. -/
def errorTextIfTruthy (e : JsVal) : JsVal :=
  if (e.optProp "message").truthy then e.optProp "message"
  else if (e.optProp "error_description").truthy then e.optProp "error_description"
  else if e.jsonStringify.truthy then e.jsonStringify
  else .str "An unexpected error occurred."

/-- The value is a string or is missing (`undefined`, `null`). -/
def JsVal.isStringOrAbsent : JsVal → Bool
  | .undefined => true
  | .null => true
  | .str _ => true
  | _ => false

/-- A draft with every field filled in, used to instantiate the theorems. -/
def sampleDraft : Draft :=
  { round := some "Hardcore DSA", title := some "x", description := some "x",
    inputFormat := some "x", outputFormat := some "x", constraints := some "x",
    example1Input := some "x", example1Output := some "x", example2Input := some "x",
    example2Output := some "x", hidden1Input := some "x", hidden1Output := some "x",
    hidden2Input := some "x", hidden2Output := some "x", hidden3Input := some "x",
    hidden3Output := some "x" }

/-- The component as first rendered, with a filled-in form. -/
def sampleComponent : Component :=
  { Component.init with form := sampleDraft }

/-- A draft whose description holds three spaces and whose other fields are
filled in. -/
def blankDescriptionDraft : Draft :=
  { sampleDraft with description := some "   " }

/-- The component as first rendered, with the form holding
`blankDescriptionDraft`. -/
def blankDescriptionComponent : Component :=
  { Component.init with form := blankDescriptionDraft }

/-- A draft that differs from `sampleDraft` in the six hidden fields only. -/
def otherHiddenDraft : Draft :=
  { sampleDraft with
    hidden1Input := some "1 2", hidden1Output := some "3",
    hidden2Input := some "", hidden2Output := none,
    hidden3Input := some "5 5", hidden3Output := some "10" }

/-- Lines 27 to 29: the three state updates that open `onSubmit`. -/
def onSubmitEnter (c : Component) : Component :=
  { c with isSubmitting := true, errorMessage := .str "", successMessage := "" }

/-- Lines 32 to 58: the first store call, at which `onSubmit` suspends. -/
def onSubmitInsertQuestion (c : Component) (data : Draft) : Component :=
  { c with
    calls := c.calls ++ [.insertQuestion [questionPayload data]]
    phase := .awaitingQuestion data }

/-- The characters that `String.prototype.trim` removes: the white space and
line terminator code points of ECMAScript. -/
def isTrimmedChar (ch : Char) : Bool :=
  let n := ch.toNat
  n == 9 || n == 10 || n == 11 || n == 12 || n == 13 || n == 32 || n == 160
    || n == 5760 || (8192 ≤ n && n ≤ 8202) || n == 8232 || n == 8233
    || n == 8239 || n == 8287 || n == 12288 || n == 65279

/-- The field is empty after trim: it holds no value, or a string made of
white space only. -/
def isEmptyAfterTrim (v : Option String) : Bool :=
  match v with
  | none => true
  | some s => s.toList.all isTrimmedChar

/-- What holds of the component between events: while `onSubmit` is suspended
the submitting flag is set and both messages are empty, and at any time one
of the two messages is empty. -/
def MessagesInv (c : Component) : Prop :=
  ((∃ data, c.phase = .awaitingQuestion data) ∨
    (∃ data qid, c.phase = .awaitingTestCases data qid) →
      c.isSubmitting = true ∧ c.successMessage = "" ∧ c.errorMessage = .str "") ∧
  (c.successMessage = "" ∨ c.errorMessage = .str "")

/-- What `catch` can receive: a value of `JsVal`, or a value that
`JSON.stringify` refuses by throwing a `TypeError` (a BigInt, an object that
contains a cycle).  Of the latter are kept what `?.message` and
`?.error_description` read and the message of the `TypeError`. -/
inductive Caught where
  | plain (v : JsVal)
  | unserialisable (message errorDescription : JsVal) (refusal : String)

/-- Lines 94 to 104 on any caught value.  When `JSON.stringify` throws at
line 95, `setErrorMessage` is not reached, the `finally` block clears the
submitting flag, and the promise of `onSubmit` is rejected.  The result is
the state left behind and the value of the rejection, if any. -/
def catchBlock (c : Component) : Caught → Component × Option JsVal
  | .plain v => (onCatch c v, none)
  | .unserialisable _ _ refusal =>
    ({ c with isSubmitting := false, phase := .idle }, some (.exn refusal))

/-! ## Theorems -/

theorem basePoints_eq_spec (r : Option String) : basePoints r = basePointsSpec r := by
  unfold basePointsSpec
  split
  · rfl
  · rfl
  · rfl
  · rename_i h1 h2 h3
    simp only [basePoints]
    rw [if_neg h1, if_neg h2, if_neg h3]

theorem mem_requiredFields (f : Field) : f ∈ requiredFields := by
  cases f <;> simp [requiredFields]

theorem failingFields_ne_nil {d : Draft} {f : Field}
    (h : isEmptyValue (d.get f) = true) : failingFields d ≠ [] := by
  intro hnil
  have hmem : f ∈ failingFields d := by
    simp only [failingFields, List.mem_filter]
    exact ⟨mem_requiredFields f, h⟩
  rw [hnil] at hmem
  exact List.not_mem_nil f hmem

theorem step_submit_valid {c : Component} (hshown : c.successMessage = "")
    (hidle : c.isSubmitting = false) (hvalid : failingFields c.form = []) :
    step c .submit = onSubmitStart { c with errors := [] } c.form := by
  simp [step, hshown, hidle, handleSubmit, hvalid]

theorem step_submit_invalid {c : Component} (hshown : c.successMessage = "")
    (hidle : c.isSubmitting = false) (hinvalid : failingFields c.form ≠ []) :
    step c .submit = onInvalid { c with errors := failingFields c.form } := by
  simp [step, hshown, hidle, handleSubmit, hinvalid]

/-- C1: the `base_points` of the row that `onSubmit` passes to the question
insert is 10 for the round "Rapid Fire", 25 for "Coding Cascade", 100 for
"Hardcore DSA" and 0 for every other round value, among them the empty string
and an absent round. -/
theorem onSubmit_basePoints (c : Component) (data : Draft) :
    (onSubmitStart c data).calls = c.calls ++ [.insertQuestion [questionPayload data]] ∧
    (questionPayload data).base_points = basePointsSpec data.round ∧
    basePointsSpec (some "") = 0 ∧ basePointsSpec none = 0 :=
  ⟨rfl, basePoints_eq_spec data.round, rfl, rfl⟩

/-- C2: when at least one required field of the form is empty, a submit
attempt issues no store call (neither insert), and `onSubmit` is not
entered. -/
theorem submit_with_empty_field_issues_no_call (c : Component) (f : Field)
    (hempty : isEmptyValue (c.form.get f) = true) :
    (step c .submit).calls = c.calls ∧ (step c .submit).phase = c.phase := by
  have hne := failingFields_ne_nil hempty
  simp only [step, handleSubmit, hne, if_false, onInvalid]
  split
  · exact ⟨rfl, rfl⟩
  · split
    · exact ⟨rfl, rfl⟩
    · exact ⟨rfl, rfl⟩

theorem submit_with_empty_field_issues_no_call_witness :
    isEmptyValue (Component.init.form.get .title) = true ∧
    (step Component.init .submit).calls = [] :=
  ⟨by decide, (submit_with_empty_field_issues_no_call Component.init .title (by decide)).1⟩

/-- C3: when every required field is filled in and both inserts succeed, the
submission leaves the form at its empty default values, a non-empty success
message and an empty error message. -/
theorem submit_success_resets_form (c : Component) (r1 r2 : Settled) (qid : JsVal)
    (hshown : c.successMessage = "") (hidle : c.isSubmitting = false)
    (hvalid : failingFields c.form = [])
    (h1 : questionId r1 = .ok qid) (h2 : checkTestCases r2 = .ok ()) :
    (run c [.submit, .questionSettled r1, .testCasesSettled r2]).form = Component.init.form ∧
    (∀ f, (run c [.submit, .questionSettled r1, .testCasesSettled r2]).form.get f = none) ∧
    (run c [.submit, .questionSettled r1, .testCasesSettled r2]).successMessage ≠ "" ∧
    (run c [.submit, .questionSettled r1, .testCasesSettled r2]).errorMessage = .str "" ∧
    run c [.submit, .questionSettled r1, .testCasesSettled r2]
      = onSubmit { c with errors := [] } c.form r1 r2 := by
  simp only [run, List.foldl, step_submit_valid hshown hidle hvalid, onSubmit]
  have hrun : step (step (onSubmitStart { c with errors := [] } c.form) (.questionSettled r1))
      (.testCasesSettled r2)
      = { c with
          isSubmitting := false
          successMessage := "Question and test cases uploaded successfully!"
          errorMessage := .str ""
          form := defaultValues
          errors := []
          phase := .idle
          calls := c.calls ++ [.insertQuestion [questionPayload c.form],
            .insertTestCases (testCasesToInsert c.form qid)]
          resets := c.resets + 1 } := by
    simp [step, onSubmitStart, onQuestionSettled, h1, onTestCasesSettled, h2, reset]
  rw [hrun]
  refine ⟨rfl, ?_, ?_, rfl, trivial⟩
  · intro f
    cases f <;> rfl
  · simp

theorem submit_success_resets_form_witness :
    (run sampleComponent [.submit, .questionSettled (.fulfilled (.obj [("id", .num 7)]) .null),
      .testCasesSettled (.fulfilled .null .null)]).form = Component.init.form :=
  (submit_success_resets_form sampleComponent (.fulfilled (.obj [("id", .num 7)]) .null)
    (.fulfilled .null .null) (.num 7) rfl rfl (by decide) rfl rfl).1

/-- C4: when the question insert fails (it returns an error, is rejected, or
answers without data), `onSubmit` issues no hidden-test-case insert, does not
call `reset`, and leaves the form holding the submitted draft. -/
theorem question_failure_keeps_draft (c : Component) (data : Draft) (r1 r2 : Settled)
    (e : JsVal) (hform : c.form = data) (h1 : questionId r1 = .error e) :
    (onSubmit c data r1 r2).calls = c.calls ++ [.insertQuestion [questionPayload data]] ∧
    (onSubmit c data r1 r2).resets = c.resets ∧
    (onSubmit c data r1 r2).form = data := by
  simp [onSubmit, step, onSubmitStart, onQuestionSettled, h1, onCatch, hform]

theorem question_failure_keeps_draft_witness :
    (onSubmit sampleComponent sampleDraft
      (.fulfilled .null (.obj [("message", .str "duplicate key")]))
      (.fulfilled .null .null)).form = sampleDraft :=
  (question_failure_keeps_draft sampleComponent sampleDraft
    (.fulfilled .null (.obj [("message", .str "duplicate key")])) (.fulfilled .null .null)
    (.obj [("message", .str "duplicate key")]) rfl rfl).2.2

theorem errorText_truthy (e : JsVal) : (errorText e).truthy = true := by
  unfold errorText
  generalize ((e.optProp "message").or (e.optProp "error_description")).or e.jsonStringify = v
  unfold JsVal.or
  split
  · assumption
  · rfl

theorem ne_str_empty_of_truthy {v : JsVal} (h : v.truthy = true) : v ≠ .str "" := by
  intro hv
  rw [hv] at h
  exact absurd h (by decide)

/-- C5: when the question insert succeeds and the hidden-test-case insert
fails, the attempt has issued exactly one question insert followed by one
hidden-test-case insert, the store holds the new question row and no new
hidden-test-case row (so none for the returned identifier when none referred
to it before), the error message is non-empty and the success message is
empty. -/
theorem test_cases_failure_leaves_orphan (c : Component) (s : Store) (data : Draft)
    (r1 r2 : Settled) (qid e : JsVal)
    (h1 : questionId r1 = .ok qid) (h2 : checkTestCases r2 = .error e) :
    (onSubmit c data r1 r2).calls
      = c.calls ++ [.insertQuestion [questionPayload data],
                    .insertTestCases (testCasesToInsert data qid)] ∧
    (s.applyAll [.insertQuestion [questionPayload data],
        .insertTestCases (testCasesToInsert data qid)] [r1, r2]).questions
      = s.questions ++ [(qid, questionPayload data)] ∧
    (s.applyAll [.insertQuestion [questionPayload data],
        .insertTestCases (testCasesToInsert data qid)] [r1, r2]).testCases
      = s.testCases ∧
    ((∀ row ∈ s.testCases, row.question_id ≠ qid) →
      ∀ row ∈ (s.applyAll [.insertQuestion [questionPayload data],
        .insertTestCases (testCasesToInsert data qid)] [r1, r2]).testCases,
        row.question_id ≠ qid) ∧
    (onSubmit c data r1 r2).errorMessage.truthy = true ∧
    (onSubmit c data r1 r2).errorMessage ≠ .str "" ∧
    (onSubmit c data r1 r2).successMessage = "" := by
  have hstore : s.applyAll [.insertQuestion [questionPayload data],
      .insertTestCases (testCasesToInsert data qid)] [r1, r2]
      = { s with questions := s.questions ++ [(qid, questionPayload data)] } := by
    simp [Store.applyAll, Store.apply, h1, h2]
  have hmsg : (onSubmit c data r1 r2).errorMessage = errorText e := by
    simp [onSubmit, step, onSubmitStart, onQuestionSettled, h1, onTestCasesSettled, h2, onCatch]
  refine ⟨?_, ?_, ?_, ?_, ?_, ?_, ?_⟩
  · simp [onSubmit, step, onSubmitStart, onQuestionSettled, h1, onTestCasesSettled, h2, onCatch]
  · rw [hstore]
  · rw [hstore]
  · rw [hstore]
    exact fun h => h
  · rw [hmsg]
    exact errorText_truthy e
  · rw [hmsg]
    exact ne_str_empty_of_truthy (errorText_truthy e)
  · simp [onSubmit, step, onSubmitStart, onQuestionSettled, h1, onTestCasesSettled, h2, onCatch]

theorem test_cases_failure_leaves_orphan_witness :
    (onSubmit sampleComponent sampleDraft (.fulfilled (.obj [("id", .num 7)]) .null)
      (.fulfilled .null (.obj [("message", .str "row violates policy")]))).successMessage = "" ∧
    (Store.applyAll ⟨[], []⟩ [.insertQuestion [questionPayload sampleDraft],
        .insertTestCases (testCasesToInsert sampleDraft (.num 7))]
        [.fulfilled (.obj [("id", .num 7)]) .null,
         .fulfilled .null (.obj [("message", .str "row violates policy")])]).testCases = [] :=
  have h := test_cases_failure_leaves_orphan sampleComponent ⟨[], []⟩ sampleDraft
    (.fulfilled (.obj [("id", .num 7)]) .null)
    (.fulfilled .null (.obj [("message", .str "row violates policy")]))
    (.num 7) (.obj [("message", .str "row violates policy")]) rfl rfl
  ⟨h.2.2.2.2.2.2, h.2.2.1⟩

/-- C6: for a draft that passes validation, the submit attempt passes exactly
one row to the question insert; the row carries the ten scalar fields of the
draft unchanged, `base_points` equal to the score tier of the round,
`avg_time = 180` and `sequence_order = 0`, and for the round "Hardcore DSA"
its `base_points` is 100. -/
theorem question_payload_fields (c : Component) (hshown : c.successMessage = "")
    (hidle : c.isSubmitting = false) (hvalid : failingFields c.form = []) :
    (step c .submit).calls = c.calls ++ [.insertQuestion [
      { title := c.form.title
        description := c.form.description
        input_format := c.form.inputFormat
        output_format := c.form.outputFormat
        constraints := c.form.constraints
        example_1_input := c.form.example1Input
        example_1_output := c.form.example1Output
        example_2_input := c.form.example2Input
        example_2_output := c.form.example2Output
        round := c.form.round
        base_points := basePointsSpec c.form.round
        avg_time := 180
        sequence_order := 0 }]] ∧
    (c.form.round = some "Hardcore DSA" → (questionPayload c.form).base_points = 100) := by
  rw [step_submit_valid hshown hidle hvalid]
  constructor
  · simp [onSubmitStart, questionPayload, basePoints_eq_spec]
  · intro h
    simp [questionPayload, basePoints, h]

theorem question_payload_fields_witness :
    (step sampleComponent .submit).calls = [.insertQuestion [
      { title := some "x", description := some "x", input_format := some "x",
        output_format := some "x", constraints := some "x", example_1_input := some "x",
        example_1_output := some "x", example_2_input := some "x",
        example_2_output := some "x", round := some "Hardcore DSA", base_points := 100,
        avg_time := 180, sequence_order := 0 }]] :=
  (question_payload_fields sampleComponent rfl rfl (by decide)).1

/-- C7: for a draft that passes validation and a question insert that
answers without error and with data whose `id` is `q`, the batch passed to the
hidden-test-case insert has exactly three rows, and row `i` has
`question_id = q`, the input and output of hidden pair `i`, and
`is_hidden = true`. -/
theorem test_case_batch_rows (c : Component) (questionData questionError q : JsVal)
    (hshown : c.successMessage = "") (hidle : c.isSubmitting = false)
    (hvalid : failingFields c.form = [])
    (herr : questionError.truthy = false) (hdata : questionData.nullish = false)
    (hid : questionData.prop "id" = q) :
    (∃ rows : List TestCaseRow,
      (run c [.submit, .questionSettled (.fulfilled questionData questionError)]).calls
        = c.calls ++ [.insertQuestion [questionPayload c.form], .insertTestCases rows] ∧
      rows.length = 3 ∧
      rows = [
        { question_id := q, input_data := c.form.hidden1Input,
          output_data := c.form.hidden1Output, is_hidden := true },
        { question_id := q, input_data := c.form.hidden2Input,
          output_data := c.form.hidden2Output, is_hidden := true },
        { question_id := q, input_data := c.form.hidden3Input,
          output_data := c.form.hidden3Output, is_hidden := true }]) := by
  have h1 : questionId (.fulfilled questionData questionError) = .ok q := by
    simp [questionId, herr, JsVal.getProp, hdata, hid]
  refine ⟨testCasesToInsert c.form q, ?_, rfl, rfl⟩
  simp only [run, List.foldl, step_submit_valid hshown hidle hvalid]
  simp [step, onSubmitStart, onQuestionSettled, h1]

theorem test_case_batch_rows_witness :
    (run sampleComponent [.submit,
      .questionSettled (.fulfilled (.obj [("id", .str "q-1")]) .null)]).calls
      = [.insertQuestion [questionPayload sampleDraft],
         .insertTestCases [
          { question_id := .str "q-1", input_data := some "x", output_data := some "x",
            is_hidden := true },
          { question_id := .str "q-1", input_data := some "x", output_data := some "x",
            is_hidden := true },
          { question_id := .str "q-1", input_data := some "x", output_data := some "x",
            is_hidden := true }]] :=
  have ⟨_, h, _, hrows⟩ := test_case_batch_rows sampleComponent
    (.obj [("id", .str "q-1")]) .null (.str "q-1") rfl rfl (by decide) rfl rfl rfl
  h.trans (by rw [hrows]; rfl)

theorem errorText_eq_ifTruthy (e : JsVal) : errorText e = errorTextIfTruthy e := by
  unfold errorText errorTextIfTruthy JsVal.or
  by_cases hm : (e.optProp "message").truthy = true
  · simp [hm]
  · by_cases hd : (e.optProp "error_description").truthy = true
    · simp [hm, hd]
    · by_cases hj : e.jsonStringify.truthy = true
      · simp [hm, hd, hj]
      · simp [hm, hd, hj]

theorem onSubmit_question_failure (c : Component) (data : Draft) (r1 r2 : Settled)
    (e : JsVal) (h1 : questionId r1 = .error e) :
    onSubmit c data r1 r2 = onCatch (onSubmitStart c data) e := by
  simp [onSubmit, step, onSubmitStart, onQuestionSettled, h1, onCatch]

theorem onSubmit_testCases_failure (c : Component) (data : Draft) (r1 r2 : Settled)
    (qid e : JsVal) (h1 : questionId r1 = .ok qid) (h2 : checkTestCases r2 = .error e) :
    onSubmit c data r1 r2
      = onCatch { onSubmitStart c data with
          calls := c.calls ++ [.insertQuestion [questionPayload data],
            .insertTestCases (testCasesToInsert data qid)]
          phase := .awaitingTestCases data qid } e := by
  simp [onSubmit, step, onSubmitStart, onQuestionSettled, h1, onTestCasesSettled, h2, onCatch]

/-- Once the component has rendered a state whose submitting flag is set, the
submit button is disabled: a press of it changes nothing and issues no store
call, at the first `await` of `onSubmit` and at the second. -/
theorem disabled_button_is_noop (c : Component) (r1 : Settled) (qid : JsVal)
    (hshown : c.successMessage = "") (hidle : c.isSubmitting = false)
    (hvalid : failingFields c.form = []) (h1 : questionId r1 = .ok qid) :
    (∀ p : Component, p.isSubmitting = true → step p .submit = p) ∧
    (step c .submit).isSubmitting = true ∧
    (run c [.submit, .questionSettled r1]).isSubmitting = true := by
  refine ⟨?_, ?_, ?_⟩
  · intro p hp
    simp [step, hp]
  · rw [step_submit_valid hshown hidle hvalid]; rfl
  · simp only [run, List.foldl, step_submit_valid hshown hidle hvalid]
    simp [step, onSubmitStart, onQuestionSettled, h1]

/-- C8: the code at the failing input.  `onSubmit` and the submit handler test
no flag.  On a filled-in form the handler sets the submitting flag and issues
one question insert; run a second time on the state it left, with the flag
set and the first insert pending, it issues a second question insert. -/
theorem second_dispatch_issues_second_insert :
    (handleSubmit sampleComponent).isSubmitting = true ∧
    (handleSubmit sampleComponent).calls = [.insertQuestion [questionPayload sampleDraft]] ∧
    (handleSubmit (handleSubmit sampleComponent)).calls
      = [.insertQuestion [questionPayload sampleDraft],
         .insertQuestion [questionPayload sampleDraft]] ∧
    (onSubmitStart (onSubmitStart sampleComponent sampleDraft) sampleDraft).calls
      = [.insertQuestion [questionPayload sampleDraft],
         .insertQuestion [questionPayload sampleDraft]] :=
  ⟨rfl, rfl, rfl, rfl⟩

/-- C9, as stated, fails: for a failure whose `message` is the empty string
and whose `error_description` is "Invalid request", the message is present,
yet the error message shown is the description. -/
theorem message_present_but_not_shown :
    (onSubmit sampleComponent sampleDraft
      (.fulfilled .null
        (.obj [("message", .str ""), ("error_description", .str "Invalid request")]))
      (.fulfilled .null .null)).errorMessage = .str "Invalid request" ∧
    errorTextIfPresent
      (.obj [("message", .str ""), ("error_description", .str "Invalid request")])
      = .str "" ∧
    (onSubmit sampleComponent sampleDraft
      (.fulfilled .null
        (.obj [("message", .str ""), ("error_description", .str "Invalid request")]))
      (.fulfilled .null .null)).errorMessage
      ≠ errorTextIfPresent
        (.obj [("message", .str ""), ("error_description", .str "Invalid request")]) := by
  refine ⟨rfl, rfl, ?_⟩
  intro h
  have h1 : (JsVal.str "Invalid request") = JsVal.str "" := h
  exact absurd (JsVal.str.inj h1) (by decide)

/-- C9, amended: the error message shown for a caught failure `e` is
`e.message` when that is truthy, otherwise `e.error_description` when that is
truthy, otherwise `JSON.stringify(e)` when that is truthy, otherwise
"An unexpected error occurred."; the rule is the same for a failure of step 1
and a failure of step 2. -/
theorem failure_message_rule (c : Component) (data : Draft) (r1 r2 : Settled) (e : JsVal) :
    (questionId r1 = .error e →
      (onSubmit c data r1 r2).errorMessage = errorTextIfTruthy e) ∧
    (∀ qid, questionId r1 = .ok qid → checkTestCases r2 = .error e →
      (onSubmit c data r1 r2).errorMessage = errorTextIfTruthy e) := by
  constructor
  · intro h1
    rw [onSubmit_question_failure c data r1 r2 e h1, ← errorText_eq_ifTruthy]
    rfl
  · intro qid h1 h2
    rw [onSubmit_testCases_failure c data r1 r2 qid e h1 h2, ← errorText_eq_ifTruthy]
    rfl

theorem failure_message_rule_witness :
    (onSubmit sampleComponent sampleDraft
      (.fulfilled .null (.obj [("message", .str ""), ("error_description", .str "denied")]))
      (.fulfilled .null .null)).errorMessage
      = errorTextIfTruthy (.obj [("message", .str ""), ("error_description", .str "denied")]) ∧
    (onSubmit sampleComponent sampleDraft (.fulfilled (.obj [("id", .num 7)]) .null)
      (.rejected (.exn "Failed to fetch"))).errorMessage
      = errorTextIfTruthy (.exn "Failed to fetch") :=
  ⟨(failure_message_rule sampleComponent sampleDraft
      (.fulfilled .null (.obj [("message", .str ""), ("error_description", .str "denied")]))
      (.fulfilled .null .null)
      (.obj [("message", .str ""), ("error_description", .str "denied")])).1 rfl,
   (failure_message_rule sampleComponent sampleDraft (.fulfilled (.obj [("id", .num 7)]) .null)
      (.rejected (.exn "Failed to fetch")) (.exn "Failed to fetch")).2 (.num 7) rfl rfl⟩

theorem str_of_truthy_of_isStringOrAbsent {v : JsVal} (hs : v.isStringOrAbsent = true)
    (ht : v.truthy = true) : ∃ s, v = .str s ∧ s ≠ "" := by
  cases v with
  | str s =>
    refine ⟨s, rfl, ?_⟩
    intro hs0
    rw [hs0] at ht
    exact absurd ht (by decide)
  | undefined => exact absurd ht (by decide)
  | null => exact absurd ht (by decide)
  | bool b => exact absurd hs (by simp [JsVal.isStringOrAbsent])
  | num n safe => exact absurd hs (by simp [JsVal.isStringOrAbsent])
  | obj fs => exact absurd hs (by simp [JsVal.isStringOrAbsent])
  | exn m => exact absurd hs (by simp [JsVal.isStringOrAbsent])
  | exnWith m fs => exact absurd hs (by simp [JsVal.isStringOrAbsent])

theorem jsonStringify_isStringOrAbsent (e : JsVal) :
    e.jsonStringify.isStringOrAbsent = true := by
  unfold JsVal.jsonStringify
  split <;> rfl

theorem errorText_is_string (e : JsVal)
    (hm : (e.optProp "message").isStringOrAbsent = true)
    (hd : (e.optProp "error_description").isStringOrAbsent = true) :
    ∃ s, errorText e = .str s ∧ s ≠ "" := by
  rw [errorText_eq_ifTruthy]
  unfold errorTextIfTruthy
  split
  · exact str_of_truthy_of_isStringOrAbsent hm (by assumption)
  · split
    · exact str_of_truthy_of_isStringOrAbsent hd (by assumption)
    · split
      · exact str_of_truthy_of_isStringOrAbsent (jsonStringify_isStringOrAbsent e)
          (by assumption)
      · exact ⟨_, rfl, by decide⟩

theorem onCatch_settles (c : Component) (e : JsVal) :
    (onCatch c e).phase = .idle ∧ (onCatch c e).isSubmitting = false ∧
    (onCatch c e).errorMessage = errorText e ∧
    (onCatch c e).successMessage = c.successMessage :=
  ⟨rfl, rfl, rfl, rfl⟩

/-- C10, as stated, fails.  A returned error object whose `message` is the
number 42 is caught, and the error message becomes that number, not a string.
And on a caught value that `JSON.stringify` refuses, the `catch` block throws
at its first statement: no error message is set and the promise of `onSubmit`
is rejected. -/
theorem failure_not_always_a_string :
    (onSubmit sampleComponent sampleDraft
      (.fulfilled .null (.obj [("message", .num 42)]))
      (.fulfilled .null .null)).errorMessage = .num 42 ∧
    (∀ s : String, (onSubmit sampleComponent sampleDraft
      (.fulfilled .null (.obj [("message", .num 42)]))
      (.fulfilled .null .null)).errorMessage ≠ .str s) ∧
    (catchBlock (onSubmitStart sampleComponent sampleDraft)
      (.unserialisable (.str "boom") .undefined
        "Converting circular structure to JSON")).1.errorMessage = .str "" ∧
    (catchBlock (onSubmitStart sampleComponent sampleDraft)
      (.unserialisable (.str "boom") .undefined
        "Converting circular structure to JSON")).2
      = some (.exn "Converting circular structure to JSON") := by
  refine ⟨rfl, ?_, rfl, rfl⟩
  intro s h
  have h42 : JsVal.num 42 = JsVal.str s := h
  cases h42

/-- C10, amended: in each way a store operation can fail (the question
insert returns an error object, is rejected, or answers with neither error
nor data; the hidden-test-case insert returns an error object or is rejected)
with a failure value `e` that `JSON.stringify` can serialise, `onSubmit` runs
to its end: the `catch` block does not throw, `onSubmit` is no longer
suspended, the submitting flag is cleared, no success is reported, and the
failure has become the one error message `errorText e`, which is truthy, and
a non-empty string when `e.message` and `e.error_description` are strings or
missing. -/
theorem failure_caught_and_reported (c : Component) (data : Draft) (r1 r2 : Settled)
    (e : JsVal)
    (hfail :
      (∃ d, r1 = .fulfilled d e ∧ e.truthy = true) ∨
      r1 = .rejected e ∨
      (∃ d err, r1 = .fulfilled d err ∧ d.nullish = true ∧ err.truthy = false ∧
        e = JsVal.typeError d "id") ∨
      (∃ qid, questionId r1 = .ok qid ∧
        ((∃ d, r2 = .fulfilled d e ∧ e.truthy = true) ∨ r2 = .rejected e))) :
    (∃ c0 : Component, (catchBlock c0 (.plain e)).2 = none ∧
      onSubmit c data r1 r2 = (catchBlock c0 (.plain e)).1) ∧
    (onSubmit c data r1 r2).phase = .idle ∧
    (onSubmit c data r1 r2).isSubmitting = false ∧
    (onSubmit c data r1 r2).successMessage = "" ∧
    (onSubmit c data r1 r2).errorMessage = errorText e ∧
    (onSubmit c data r1 r2).errorMessage.truthy = true ∧
    ((e.optProp "message").isStringOrAbsent = true →
      (e.optProp "error_description").isStringOrAbsent = true →
      ∃ s, (onSubmit c data r1 r2).errorMessage = .str s ∧ s ≠ "") := by
  have hcatch : ∃ c0 : Component, c0.successMessage = "" ∧
      onSubmit c data r1 r2 = onCatch c0 e := by
    rcases hfail with ⟨d, hr, ht⟩ | hr | ⟨d, err, hr, hd, hf, he⟩ | ⟨qid, h1, h2⟩
    · exact ⟨_, rfl, onSubmit_question_failure c data r1 r2 e (by simp [hr, questionId, ht])⟩
    · exact ⟨_, rfl, onSubmit_question_failure c data r1 r2 e (by simp [hr, questionId])⟩
    · exact ⟨_, rfl, onSubmit_question_failure c data r1 r2 e
        (by simp [hr, questionId, hf, JsVal.getProp, hd, he])⟩
    · have h2e : checkTestCases r2 = .error e := by
        rcases h2 with ⟨d, hr, ht⟩ | hr
        · simp [hr, checkTestCases, ht]
        · simp [hr, checkTestCases]
      exact ⟨_, rfl, onSubmit_testCases_failure c data r1 r2 qid e h1 h2e⟩
  obtain ⟨c0, hc0, hrun⟩ := hcatch
  rw [hrun]
  refine ⟨⟨c0, rfl, rfl⟩, rfl, rfl, hc0, rfl, errorText_truthy e, ?_⟩
  intro hm hd
  exact errorText_is_string e hm hd

theorem failure_caught_and_reported_witness :
    (onSubmit sampleComponent sampleDraft (.fulfilled .null .null)
      (.fulfilled .null .null)).errorMessage
      = .str "Cannot read properties of null (reading \x27id\x27)" ∧
    (onSubmit sampleComponent sampleDraft (.fulfilled .null .null)
      (.fulfilled .null .null)).isSubmitting = false :=
  have h := failure_caught_and_reported sampleComponent sampleDraft (.fulfilled .null .null)
    (.fulfilled .null .null) (JsVal.typeError .null "id")
    (Or.inr (Or.inr (Or.inl ⟨.null, .null, rfl, rfl, rfl, rfl⟩)))
  ⟨h.2.2.2.2.1.trans rfl, h.2.2.1⟩

theorem onSubmitStart_eq (c : Component) (data : Draft) :
    onSubmitStart c data = onSubmitInsertQuestion (onSubmitEnter c) data := rfl

theorem question_failure_calls (c : Component) (data : Draft) (r1 r2 : Settled)
    (e : JsVal) (h1 : questionId r1 = .error e) :
    (onSubmit c data r1 r2).calls = c.calls ++ [.insertQuestion [questionPayload data]] := by
  simp [onSubmit, step, onSubmitStart, onQuestionSettled, h1, onCatch]

theorem onSubmit_calls_of_question_ok (c : Component) (data : Draft) (r1 r2 : Settled)
    (qid : JsVal) (h1 : questionId r1 = .ok qid) :
    (step (onSubmitStart c data) (.questionSettled r1)).calls
      = c.calls ++ [.insertQuestion [questionPayload data],
          .insertTestCases (testCasesToInsert data qid)] ∧
    (onSubmit c data r1 r2).calls
      = c.calls ++ [.insertQuestion [questionPayload data],
          .insertTestCases (testCasesToInsert data qid)] := by
  constructor
  · simp [step, onSubmitStart, onQuestionSettled, h1]
  · simp only [onSubmit, step, onSubmitStart, onQuestionSettled, h1, onTestCasesSettled]
    cases checkTestCases r2 <;> simp [onCatch, reset]

/-- C11: in one invocation of `onSubmit` the store calls are ordered and
unrepeated.  At the first `await` only the question insert has been issued.
When the question insert fails it stays the only call; when it answers
without error and with data, one batch hidden-test-case insert follows it,
whose rows carry the returned `id`, and nothing else.  So the calls of an
invocation are one question insert and at most one hidden-test-case insert,
and on full success they are exactly these two, in this order. -/
theorem store_calls_ordered (c : Component) (data : Draft) (r1 r2 : Settled) :
    (onSubmitStart c data).calls = c.calls ++ [.insertQuestion [questionPayload data]] ∧
    ((∃ e, questionId r1 = .error e ∧
        (onSubmit c data r1 r2).calls
          = c.calls ++ [.insertQuestion [questionPayload data]]) ∨
      (∃ qid, questionId r1 = .ok qid ∧
        (step (onSubmitStart c data) (.questionSettled r1)).calls
          = c.calls ++ [.insertQuestion [questionPayload data],
              .insertTestCases (testCasesToInsert data qid)] ∧
        (onSubmit c data r1 r2).calls
          = c.calls ++ [.insertQuestion [questionPayload data],
              .insertTestCases (testCasesToInsert data qid)])) ∧
    (∃ produced, (onSubmit c data r1 r2).calls = c.calls ++ produced ∧
      produced.countP StoreCall.isQuestionInsert = 1 ∧
      produced.countP StoreCall.isTestCasesInsert ≤ 1 ∧
      produced.head? = some (.insertQuestion [questionPayload data])) ∧
    (∀ qid, questionId r1 = .ok qid → checkTestCases r2 = .ok () →
      (onSubmit c data r1 r2).calls
        = c.calls ++ [.insertQuestion [questionPayload data],
            .insertTestCases (testCasesToInsert data qid)]) := by
  refine ⟨rfl, ?_, ?_, ?_⟩
  · cases h1 : questionId r1 with
    | error e =>
      exact Or.inl ⟨e, rfl, (question_failure_calls c data r1 r2 e h1)⟩
    | ok qid =>
      exact Or.inr ⟨qid, rfl, onSubmit_calls_of_question_ok c data r1 r2 qid h1⟩
  · cases h1 : questionId r1 with
    | error e =>
      exact ⟨_, question_failure_calls c data r1 r2 e h1, by simp [StoreCall.isQuestionInsert],
        by simp [StoreCall.isTestCasesInsert], rfl⟩
    | ok qid =>
      exact ⟨_, (onSubmit_calls_of_question_ok c data r1 r2 qid h1).2,
        by simp [StoreCall.isQuestionInsert], by simp [StoreCall.isTestCasesInsert], rfl⟩
  · intro qid h1 _
    exact (onSubmit_calls_of_question_ok c data r1 r2 qid h1).2

theorem store_calls_ordered_witness :
    (onSubmit sampleComponent sampleDraft (.fulfilled (.obj [("id", .num 7)]) .null)
      (.fulfilled .null .null)).calls
      = [.insertQuestion [questionPayload sampleDraft],
         .insertTestCases (testCasesToInsert sampleDraft (.num 7))] :=
  (store_calls_ordered sampleComponent sampleDraft (.fulfilled (.obj [("id", .num 7)]) .null)
    (.fulfilled .null .null)).2.2.2 (.num 7) rfl rfl

theorem onSubmit_settles (c : Component) (data : Draft) (r1 r2 : Settled) :
    (onSubmit c data r1 r2).isSubmitting = false ∧ (onSubmit c data r1 r2).phase = .idle := by
  simp only [onSubmit, step, onSubmitStart, onQuestionSettled]
  cases questionId r1 with
  | error e => exact ⟨rfl, rfl⟩
  | ok qid =>
    simp only [onTestCasesSettled]
    cases checkTestCases r2 with
    | error e => exact ⟨rfl, rfl⟩
    | ok u => exact ⟨rfl, rfl⟩

/-- C12: `onSubmit` sets the submitting flag before it issues any store call
(after its opening state updates the flag is set and the call trace is
untouched), the flag is set at the first `await` and still set at the second,
and whatever the two store calls settle with (both succeed, step 1 fails,
step 2 fails) the flag is cleared and `onSubmit` is no longer suspended once
it has run to its end. -/
theorem submitting_flag_brackets_workflow (c : Component) (data : Draft) (r1 r2 : Settled) :
    (onSubmitEnter c).isSubmitting = true ∧
    (onSubmitEnter c).calls = c.calls ∧
    onSubmitStart c data = onSubmitInsertQuestion (onSubmitEnter c) data ∧
    (onSubmitStart c data).isSubmitting = true ∧
    ((∃ qid, questionId r1 = .ok qid) →
      (step (onSubmitStart c data) (.questionSettled r1)).isSubmitting = true) ∧
    (onSubmit c data r1 r2).isSubmitting = false ∧
    (onSubmit c data r1 r2).phase = .idle := by
  refine ⟨rfl, rfl, rfl, rfl, ?_, (onSubmit_settles c data r1 r2).1,
    (onSubmit_settles c data r1 r2).2⟩
  rintro ⟨qid, h1⟩
  simp [step, onSubmitStart, onQuestionSettled, h1]

theorem submitting_flag_brackets_workflow_witness :
    (step (onSubmitStart sampleComponent sampleDraft)
      (.questionSettled (.fulfilled (.obj [("id", .num 7)]) .null))).isSubmitting = true ∧
    (onSubmit sampleComponent sampleDraft (.fulfilled (.obj [("id", .num 7)]) .null)
      (.rejected (.exn "Failed to fetch"))).isSubmitting = false :=
  have h := submitting_flag_brackets_workflow sampleComponent sampleDraft
    (.fulfilled (.obj [("id", .num 7)]) .null) (.rejected (.exn "Failed to fetch"))
  ⟨h.2.2.2.2.1 ⟨.num 7, rfl⟩, h.2.2.2.2.2.1⟩

theorem failingFields_eq_nil_iff (d : Draft) :
    failingFields d = [] ↔ ∀ f, isEmptyValue (d.get f) = false := by
  simp only [failingFields, List.filter_eq_nil_iff]
  constructor
  · intro h f
    have := h f (mem_requiredFields f)
    simpa using this
  · intro h f _
    simp [h f]

theorem mem_failingFields (d : Draft) (f : Field) :
    f ∈ failingFields d ↔ isEmptyValue (d.get f) = true := by
  simp only [failingFields, List.mem_filter]
  exact ⟨fun h => h.2, fun h => ⟨mem_requiredFields f, h⟩⟩

/-- C14: a submit attempt that fails required-field validation sets the error
message to exactly "Please fill in all required fields.", marks exactly the
fields whose required rule fails, and leaves the form values, the submitting
flag and the success message (and the call trace) as they were. -/
theorem invalid_submit_frame (c : Component) (hshown : c.successMessage = "")
    (hidle : c.isSubmitting = false) (hinvalid : failingFields c.form ≠ []) :
    (step c .submit).errorMessage = .str "Please fill in all required fields." ∧
    (∀ f, f ∈ (step c .submit).errors ↔ isEmptyValue (c.form.get f) = true) ∧
    (step c .submit).form = c.form ∧
    (step c .submit).isSubmitting = c.isSubmitting ∧
    (step c .submit).successMessage = c.successMessage ∧
    (step c .submit).calls = c.calls := by
  rw [step_submit_invalid hshown hidle hinvalid]
  refine ⟨rfl, ?_, rfl, rfl, rfl, rfl⟩
  intro f
  exact mem_failingFields c.form f

theorem invalid_submit_frame_witness :
    (step { sampleComponent with form := { sampleDraft with title := some "" } }
      .submit).errors = [.title] ∧
    (step { sampleComponent with form := { sampleDraft with title := some "" } }
      .submit).errorMessage = .str "Please fill in all required fields." :=
  ⟨by decide,
   (invalid_submit_frame { sampleComponent with form := { sampleDraft with title := some "" } }
    rfl rfl (by decide)).1⟩

/-- C16: two drafts that agree on the round, the title, the description, the
two formats, the constraints and the four example fields yield the same row
for the question insert, whatever their hidden test-case fields hold: the
call that `onSubmit` issues at step 1 is the same. -/
theorem question_payload_ignores_hidden (c : Component) (d1 d2 : Draft)
    (hround : d1.round = d2.round) (htitle : d1.title = d2.title)
    (hdesc : d1.description = d2.description)
    (hin : d1.inputFormat = d2.inputFormat) (hout : d1.outputFormat = d2.outputFormat)
    (hcons : d1.constraints = d2.constraints)
    (he1i : d1.example1Input = d2.example1Input)
    (he1o : d1.example1Output = d2.example1Output)
    (he2i : d1.example2Input = d2.example2Input)
    (he2o : d1.example2Output = d2.example2Output) :
    questionPayload d1 = questionPayload d2 ∧
    (onSubmitStart c d1).calls = (onSubmitStart c d2).calls ∧
    (onSubmitStart c d1).calls = c.calls ++ [.insertQuestion [questionPayload d2]] := by
  have h : questionPayload d1 = questionPayload d2 := by
    simp [questionPayload, hround, htitle, hdesc, hin, hout, hcons, he1i, he1o, he2i, he2o]
  refine ⟨h, ?_, ?_⟩ <;> simp [onSubmitStart, h]

theorem question_payload_ignores_hidden_witness :
    sampleDraft ≠ otherHiddenDraft ∧
    (onSubmitStart sampleComponent sampleDraft).calls
      = (onSubmitStart sampleComponent otherHiddenDraft).calls :=
  ⟨by decide,
   (question_payload_ignores_hidden sampleComponent sampleDraft otherHiddenDraft
    rfl rfl rfl rfl rfl rfl rfl rfl rfl rfl).2.1⟩

/-- C13, as stated, fails: a description of three spaces is empty after trim,
every other field is filled in, and yet the submit attempt passes validation
and issues the question insert. -/
theorem blank_description_is_submitted :
    isEmptyAfterTrim blankDescriptionDraft.description = true ∧
    (∀ f, f ≠ Field.description → isEmptyValue (blankDescriptionDraft.get f) = false) ∧
    failingFields blankDescriptionComponent.form = [] ∧
    (step blankDescriptionComponent .submit).calls
      = [.insertQuestion [questionPayload blankDescriptionDraft]] ∧
    (step blankDescriptionComponent .submit).isSubmitting = true := by
  refine ⟨by decide, ?_, by decide, rfl, rfl⟩
  intro f _
  cases f <;> rfl

/-- C13, amended: the description is required to be non-empty as it stands,
without trimming.  With every other field filled in, a submit attempt whose
description holds no value or the empty string is rejected by validation (no
store call, `onSubmit` not entered, the description marked, the aggregate
message set), and a submit attempt with any other description, white space
only included, enters `onSubmit`. -/
theorem description_required_untrimmed (c : Component) (hshown : c.successMessage = "")
    (hidle : c.isSubmitting = false)
    (hothers : ∀ f, f ≠ Field.description → isEmptyValue (c.form.get f) = false) :
    (isEmptyValue c.form.description = true →
      (step c .submit).calls = c.calls ∧ (step c .submit).phase = c.phase ∧
      Field.description ∈ (step c .submit).errors ∧
      (step c .submit).errorMessage = .str "Please fill in all required fields.") ∧
    (isEmptyValue c.form.description = false →
      step c .submit = onSubmitStart { c with errors := [] } c.form) := by
  constructor
  · intro hempty
    have hne : failingFields c.form ≠ [] :=
      failingFields_ne_nil (f := Field.description) hempty
    rw [step_submit_invalid hshown hidle hne]
    exact ⟨rfl, rfl, (mem_failingFields c.form .description).2 hempty, rfl⟩
  · intro hfull
    have hvalid : failingFields c.form = [] := by
      rw [failingFields_eq_nil_iff]
      intro f
      by_cases hf : f = Field.description
      · rw [hf]; exact hfull
      · exact hothers f hf
    exact step_submit_valid hshown hidle hvalid

theorem description_required_untrimmed_witness :
    (step { sampleComponent with form := { sampleDraft with description := some "" } }
      .submit).calls = [] ∧
    (step blankDescriptionComponent .submit).calls
      = [.insertQuestion [questionPayload blankDescriptionDraft]] :=
  ⟨((description_required_untrimmed
      { sampleComponent with form := { sampleDraft with description := some "" } } rfl rfl
      (by intro f hf; cases f <;> first | rfl | exact absurd rfl hf)).1 rfl).1,
   congrArg Component.calls
    ((description_required_untrimmed blankDescriptionComponent rfl rfl
      (by intro f _; cases f <;> rfl)).2 rfl)⟩

theorem messagesInv_init : MessagesInv Component.init := by
  refine ⟨?_, Or.inl rfl⟩
  rintro (⟨d, h⟩ | ⟨d, q, h⟩)
  · exact absurd h (by simp [Component.init])
  · exact absurd h (by simp [Component.init])

theorem messagesInv_onCatch {c : Component} (e : JsVal) (hs : c.successMessage = "") :
    MessagesInv (onCatch c e) := by
  refine ⟨?_, Or.inl hs⟩
  rintro (⟨d, h⟩ | ⟨d, q, h⟩)
  · exact absurd h (by simp [onCatch])
  · exact absurd h (by simp [onCatch])

theorem messagesInv_step (c : Component) (ev : Event) (h : MessagesInv c) :
    MessagesInv (step c ev) := by
  obtain ⟨hpend, hone⟩ := h
  cases ev with
  | submit =>
    by_cases hs : c.successMessage = ""
    · by_cases hsub : c.isSubmitting = true
      · have : step c .submit = c := by simp [step, hsub]
        rw [this]; exact ⟨hpend, hone⟩
      · have hidle : c.isSubmitting = false := by simpa using hsub
        by_cases hv : failingFields c.form = []
        · rw [step_submit_valid hs hidle hv]
          exact ⟨fun _ => ⟨rfl, rfl, rfl⟩, Or.inl rfl⟩
        · rw [step_submit_invalid hs hidle hv]
          refine ⟨?_, Or.inl hs⟩
          intro hp
          have := (hpend hp).1
          rw [hidle] at this
          exact absurd this (by decide)
    · have : step c .submit = c := by simp [step, hs]
      rw [this]; exact ⟨hpend, hone⟩
  | questionSettled r =>
    cases hph : c.phase with
    | idle =>
      have : step c (.questionSettled r) = c := by simp [step, hph]
      rw [this]; exact ⟨hpend, hone⟩
    | awaitingTestCases d q =>
      have : step c (.questionSettled r) = c := by simp [step, hph]
      rw [this]; exact ⟨hpend, hone⟩
    | awaitingQuestion d =>
      obtain ⟨h1, h2, h3⟩ := hpend (Or.inl ⟨d, hph⟩)
      have hstep : step c (.questionSettled r) = onQuestionSettled c d r := by
        simp [step, hph]
      rw [hstep]
      unfold onQuestionSettled
      cases questionId r with
      | error e => exact messagesInv_onCatch e h2
      | ok qid => exact ⟨fun _ => ⟨h1, h2, h3⟩, Or.inl h2⟩
  | testCasesSettled r =>
    cases hph : c.phase with
    | idle =>
      have : step c (.testCasesSettled r) = c := by simp [step, hph]
      rw [this]; exact ⟨hpend, hone⟩
    | awaitingQuestion d =>
      have : step c (.testCasesSettled r) = c := by simp [step, hph]
      rw [this]; exact ⟨hpend, hone⟩
    | awaitingTestCases d q =>
      obtain ⟨_, h2, h3⟩ := hpend (Or.inr ⟨d, q, hph⟩)
      have hstep : step c (.testCasesSettled r) = onTestCasesSettled c r := by
        simp [step, hph]
      rw [hstep]
      unfold onTestCasesSettled
      cases checkTestCases r with
      | error e => exact messagesInv_onCatch e h2
      | ok u =>
        refine ⟨?_, Or.inr h3⟩
        rintro (⟨d, h⟩ | ⟨d, q, h⟩)
        · exact absurd h (by simp [reset])
        · exact absurd h (by simp [reset])
  | addNext =>
    by_cases hs : c.successMessage = ""
    · have : step c .addNext = c := by simp [step, hs]
      rw [this]; exact ⟨hpend, hone⟩
    · have : step c .addNext = { c with successMessage := "" } := by simp [step, hs]
      rw [this]
      exact ⟨fun hp => absurd (hpend hp).2.1 hs, Or.inl rfl⟩
  | edit f v =>
    by_cases hs : c.successMessage = ""
    · have : step c (.edit f v) = { c with form := c.form.set f v } := by simp [step, hs]
      rw [this]; exact ⟨hpend, hone⟩
    · have : step c (.edit f v) = c := by simp [step, hs]
      rw [this]; exact ⟨hpend, hone⟩

theorem messagesInv_run (events : List Event) (c : Component) (h : MessagesInv c) :
    MessagesInv (run c events) := by
  induction events generalizing c with
  | nil => exact h
  | cons ev rest ih => exact ih (step c ev) (messagesInv_step c ev h)

/-- C15: in every state the component reaches from its first render by any
sequence of events (submit attempts, valid or not, settlements of the store
calls with any outcome, "Add Next Question", edits of the fields), the
success message is empty or the error message is empty: the two are never
both non-empty. -/
theorem messages_never_both_set (events : List Event) :
    ((run Component.init events).successMessage = "" ∨
      (run Component.init events).errorMessage = .str "") ∧
    ¬ ((run Component.init events).successMessage ≠ "" ∧
      (run Component.init events).errorMessage.truthy = true) := by
  have h := (messagesInv_run events Component.init messagesInv_init).2
  refine ⟨h, ?_⟩
  rintro ⟨hs, he⟩
  rcases h with h | h
  · exact hs h
  · rw [h] at he
    exact absurd he (by decide)

end UploadQuestion
